import Mathlib

/-!
Verification of the incident lifecycle core and the chat-console state of the
fenrir.gateway chatops bot, as a shallow embedding of the Go sources.

The embedding covers:
* the data model (`internal/models`): incident, audit record, alert, action DTOs;
* the incident store contract as implemented by the gorm repository
  (`internal/storage/gorm/incident_repo.go`) over the SQL schema in
  `migrations/000001_create_initial_tables.up.sql` (`fingerprint TEXT UNIQUE NOT NULL`,
  auto-increment primary key, `First` ordering by primary key);
* `IncidentService.CreateIncidentFromAlert`, `ExecuteAction`, `UpdateStatus`
  (`internal/service/incident_service.go`);
* the bot's view registry (`addIncidentView` / `removeIncidentView` /
  `getViewRegistryKey`), the per-operator interaction states
  (`handleSetStatus`, `handleScaleDeployment`, `handleAllocateHardware`)
  and the callback-token dispatch (`handleCallback`) from `internal/bot`.

Go maps are modelled as association lists with distinct keys; map assignment is
remove-then-append (`assocSet`), which is observationally the Go map semantics.
Wall-clock readings (`time.Now()`), the Executor and the success of
`repo.Update` are inputs (`Env`), since the Go code treats them as ambient
effects.
-/

namespace Fenrir

/-- Go map assignment `m[k] = v` on an association list: any existing binding of
`k` is removed and the new binding appended. -/
def assocSet {κ α : Type} [BEq κ] (m : List (κ × α)) (k : κ) (v : α) : List (κ × α) :=
  m.filter (fun p => !(p.1 == k)) ++ [(k, v)]

/-- Number of bindings of key `k` in an association list. -/
def assocCount {κ α : Type} [BEq κ] (m : List (κ × α)) (k : κ) : Nat :=
  (m.filter (fun p => p.1 == k)).length

theorem lookup_assocSet {κ α : Type} [BEq κ] [LawfulBEq κ]
    (m : List (κ × α)) (k : κ) (v : α) :
    List.lookup k (assocSet m k v) = some v := by
  induction m with
  | nil => simp [assocSet, List.lookup]
  | cons a tl ih =>
    by_cases hx : (a.1 == k) = true
    · simpa [assocSet, List.filter, hx] using ih
    · have hne : a.1 ≠ k := fun h => hx (by simp [h])
      have hk : (k == a.1) = false := beq_eq_false_iff_ne.mpr (Ne.symm hne)
      simp only [assocSet] at ih ⊢
      simp [List.filter_cons, hx, List.lookup, hk, ih]

theorem lookup_filter_ne_self {κ α : Type} [BEq κ] [LawfulBEq κ]
    (m : List (κ × α)) (k : κ) :
    List.lookup k (m.filter (fun p => !(p.1 == k))) = none := by
  induction m with
  | nil => rfl
  | cons a tl ih =>
    by_cases hx : (a.1 == k) = true
    · simp [List.filter_cons, hx, ih]
    · have hne : a.1 ≠ k := fun h => hx (by simp [h])
      have hk : (k == a.1) = false := beq_eq_false_iff_ne.mpr (Ne.symm hne)
      simp [List.filter_cons, hx, List.lookup, hk, ih]

theorem assocCount_assocSet {κ α : Type} [BEq κ] [LawfulBEq κ]
    (m : List (κ × α)) (k : κ) (v : α) :
    assocCount (assocSet m k v) k = 1 := by
  have hnil : (m.filter (fun p => !(p.1 == k))).filter (fun p => p.1 == k) = [] := by
    induction m with
    | nil => rfl
    | cons a tl ih =>
      by_cases hx : (a.1 == k) = true
      · simp [List.filter_cons, hx, ih]
      · simp [List.filter_cons, hx, ih]
  simp [assocCount, assocSet, List.filter_append, hnil]

/-! ## Data model (`internal/models`) -/

/-- Model of `models.IncidentStatus`: `active`, `resolved`, `rejected`. -/
inductive IncidentStatus where
  | active
  | resolved
  | rejected
deriving DecidableEq, Repr

/-- The string value of a status constant (`StatusActive = "active"`, ...). -/
def IncidentStatus.str : IncidentStatus → String
  | .active => "active"
  | .resolved => "resolved"
  | .rejected => "rejected"

/-- Go `map[string]string` (labels, annotations, parameters, JSONBMap). -/
abbrev StrMap := List (String × String)

/-- Go two-valued map read `v, ok := m[k]`. -/
def StrMap.get? (m : StrMap) (k : String) : Option String :=
  List.lookup k m

/-- Go one-valued map read `m[k]`: the zero value `""` when the key is absent. -/
def StrMap.getD (m : StrMap) (k : String) : String :=
  (StrMap.get? m k).getD ""

/-- Go map write `m[k] = v`. -/
def StrMap.set (m : StrMap) (k v : String) : StrMap :=
  assocSet m k v

/-- Model of `models.AuditRecord`: immutable log entry for one action on an incident. -/
structure AuditRecord where
  incidentID : Nat
  userID : Nat
  action : String
  parameters : StrMap
  timestamp : Nat
  success : Bool
  result : String
deriving DecidableEq, Repr

/-- Model of `models.Incident`. Timestamps are abstract `Nat` instants; the
`sql.NullInt64` Telegram bindings are `Option Int`. -/
structure Incident where
  id : Nat
  fingerprint : String
  status : IncidentStatus
  startsAt : Nat
  endsAt : Option Nat
  summary : String
  description : String
  labels : StrMap
  affectedResources : StrMap
  auditLog : List AuditRecord
  resolvedBy : Option Nat
  rejectionReason : String
  telegramChatID : Option Int
  telegramMessageID : Option Int
  telegramTopicID : Option Int
deriving DecidableEq, Repr

/-- Model of `models.Alert` (the fields `CreateIncidentFromAlert` reads). -/
structure Alert where
  fingerprint : String
  startsAt : Nat
  labels : StrMap
  annotations : StrMap
deriving DecidableEq, Repr

/-- Model of `models.ResourceInfo`. -/
structure ResourceInfo where
  name : String
  status : String
deriving DecidableEq, Repr

/-- Model of `models.ResultData`. -/
structure ResultData where
  type : String
  items : List ResourceInfo
  itemType : String
deriving DecidableEq, Repr

/-- Model of `models.ActionResult`: `Message`, `Error` (empty string = no error),
optional `ResultData`. -/
structure ActionResult where
  message : String
  error : String
  resultData : Option ResultData
deriving DecidableEq, Repr

/-- Model of `models.ActionRequest`. -/
structure ActionRequest where
  action : String
  incidentID : Nat
  userID : Nat
  parameters : StrMap
deriving DecidableEq, Repr

/-! ## Store contract (gorm repository over the migration schema) -/

/-- Repository failures visible to the service: `gorm.ErrRecordNotFound`, the
`fingerprint TEXT UNIQUE NOT NULL` constraint rejecting a duplicate insert,
and a transient failure of `Update`. -/
inductive RepoError where
  | recordNotFound
  | uniqueViolation
  | persistFailure
deriving DecidableEq, Repr

/-- The incident table: rows kept in primary-key (creation) order, plus the
auto-increment counter. -/
structure Store where
  incidents : List Incident
  nextID : Nat
deriving DecidableEq, Repr

/-- Repository `FindByID`: gorm `First(&incident, id)`. -/
def Store.findByID (st : Store) (id : Nat) : Option Incident :=
  st.incidents.find? (fun i => i.id == id)

/-- Repository `FindByFingerprint`: `Where("fingerprint = ?", fp).First(&incident)`.
gorm `First` orders by primary key, so the oldest matching row wins. -/
def Store.findByFingerprint (st : Store) (fp : String) : Option Incident :=
  st.incidents.find? (fun i => i.fingerprint == fp)

/-- Repository `Create`: inserts the row with the next auto-increment id. The schema
declares `fingerprint TEXT UNIQUE NOT NULL`, so inserting a second row with an
existing fingerprint fails with a constraint violation. -/
def Store.create (st : Store) (inc : Incident) : Except RepoError (Incident × Store) :=
  if st.incidents.any (fun i => i.fingerprint == inc.fingerprint) then
    .error .uniqueViolation
  else
    let inc' := { inc with id := st.nextID }
    .ok (inc', { incidents := st.incidents ++ [inc'], nextID := st.nextID + 1 })

/-- Repository `Update`: gorm `Save` replaces the row with the same primary key. -/
def Store.update (st : Store) (inc : Incident) : Store :=
  { st with incidents := st.incidents.map (fun i => if i.id == inc.id then inc else i) }

/-- Ambient effects of one service call: the Executor (`executor.ExecuteAction`
as a function from request to result), whether `repo.Update` succeeds on this
call, and the current `time.Now()` reading. -/
structure Env where
  execAction : ActionRequest → ActionResult
  updateOk : Bool
  now : Nat

/-! ## Lifecycle core (`internal/service/incident_service.go`) -/

/-- The `affectedResources` map extracted in `CreateIncidentFromAlert` from the
fixed label keys `deployment`, `pod`, `namespace`. -/
def extractAffectedResources (labels : StrMap) : StrMap :=
  let m : StrMap := []
  let m := match StrMap.get? labels "deployment" with
    | some v => StrMap.set m "deployment" v
    | none => m
  let m := match StrMap.get? labels "pod" with
    | some v => StrMap.set m "pod" v
    | none => m
  match StrMap.get? labels "namespace" with
    | some v => StrMap.set m "namespace" v
    | none => m

/-- The fresh incident literal built in `CreateIncidentFromAlert` (status
Active, labels copied verbatim, empty audit log); the id is assigned by
`repo.Create`. -/
def incidentFromAlert (alert : Alert) : Incident :=
  { id := 0
    fingerprint := alert.fingerprint
    status := .active
    startsAt := alert.startsAt
    endsAt := none
    summary := StrMap.getD alert.annotations "summary"
    description := StrMap.getD alert.annotations "description"
    labels := alert.labels
    affectedResources := extractAffectedResources alert.labels
    auditLog := []
    resolvedBy := none
    rejectionReason := ""
    telegramChatID := none
    telegramMessageID := none
    telegramTopicID := none }

/-- Observable outcome of `CreateIncidentFromAlert`: the returned value, the
store afterwards, and the incidents enqueued on the new-incident notification
channel. -/
structure CreateOutcome where
  res : Except RepoError Incident
  store : Store
  notified : List Incident

namespace IncidentService

/-- The creation path of `CreateIncidentFromAlert`: build the incident,
`repo.Create` it, and on success enqueue it on the notification channel. -/
def createNewFromAlert (st : Store) (alert : Alert) : CreateOutcome :=
  match Store.create st (incidentFromAlert alert) with
  | .error e => { res := .error e, store := st, notified := [] }
  | .ok (inc, st') => { res := .ok inc, store := st', notified := [inc] }

/-- Embeds `IncidentService.CreateIncidentFromAlert`: look up by fingerprint; if the
found incident is Active, return it unchanged; otherwise build and persist a
new Active incident and enqueue a notification. -/
def createIncidentFromAlert (st : Store) (alert : Alert) : CreateOutcome :=
  match Store.findByFingerprint st alert.fingerprint with
  | some existing =>
    if existing.status = .active then
      { res := .ok existing, store := st, notified := [] }
    else
      createNewFromAlert st alert
  | none => createNewFromAlert st alert

end IncidentService

/-- Embeds `addAffectedResourceToAudit`: copies a `pod:`/`deployment:` identifier from
the request parameters into the audit entry's parameter map. -/
def addAffectedResourceToAudit (entry : AuditRecord) (req : ActionRequest) : AuditRecord :=
  let resourceIdentifier :=
    match StrMap.get? req.parameters "pod" with
    | some pod => "pod: " ++ pod
    | none =>
      match StrMap.get? req.parameters "deployment" with
      | some dep => "deployment: " ++ dep
      | none => ""
  if resourceIdentifier = "" then entry
  else { entry with parameters := StrMap.set entry.parameters "affected_resource" resourceIdentifier }

/-- Observable outcome of `ExecuteAction`: the returned `(result, error)` pair,
the store afterwards, the incidents enqueued on the update channel, the
requests sent to the Executor, and the audit entries appended to the loaded
incident during the call. -/
structure ExecOutcome where
  result : ActionResult
  err : Option RepoError
  store : Store
  enqueued : List Incident
  executorCalls : List ActionRequest
  appended : List AuditRecord

namespace IncidentService

/-- Embeds `IncidentService.ExecuteAction`: load the incident (error out before
touching the Executor when absent), run the Executor, append one audit record
with `Success = (result.Error == "")`, persist, and enqueue on the update
channel; on persistence failure the Executor result is still returned together
with the error. -/
def executeAction (env : Env) (st : Store) (req : ActionRequest) : ExecOutcome :=
  match Store.findByID st req.incidentID with
  | none =>
    { result := { message := "", error := "Incident not found", resultData := none }
      err := some .recordNotFound
      store := st
      enqueued := []
      executorCalls := []
      appended := [] }
  | some incident =>
    let result := env.execAction req
    let entry : AuditRecord :=
      { incidentID := req.incidentID
        userID := req.userID
        action := req.action
        parameters := req.parameters
        timestamp := env.now
        success := result.error == ""
        result := result.message }
    let entry := addAffectedResourceToAudit entry req
    let incident' := { incident with auditLog := incident.auditLog ++ [entry] }
    if env.updateOk then
      { result := result
        err := none
        store := Store.update st incident'
        enqueued := [incident']
        executorCalls := [req]
        appended := [entry] }
    else
      { result := result
        err := some .persistFailure
        store := st
        enqueued := []
        executorCalls := [req]
        appended := [entry] }

end IncidentService

/-- Observable outcome of `UpdateStatus`. -/
structure UpdateOutcome where
  err : Option RepoError
  store : Store
  enqueued : List Incident
  appended : List AuditRecord

namespace IncidentService

/-- Embeds `IncidentService.UpdateStatus`: load the incident, set the new status
unconditionally, stamp `EndsAt`/`ResolvedBy`/`RejectionReason` as the new
status dictates, append one `update_status` audit record, persist, and enqueue
on the update channel. The source has no guard against the incident already
being in a terminal status. -/
def updateStatus (env : Env) (st : Store) (userID incidentID : Nat)
    (status : IncidentStatus) (reason : String) : UpdateOutcome :=
  match Store.findByID st incidentID with
  | none => { err := some .recordNotFound, store := st, enqueued := [], appended := [] }
  | some incident =>
    let incident := { incident with status := status }
    let incident :=
      if status = .resolved ∨ status = .rejected then
        { incident with endsAt := some env.now }
      else incident
    let incident :=
      if status = .resolved then { incident with resolvedBy := some userID } else incident
    let incident :=
      if status = .rejected then { incident with rejectionReason := reason } else incident
    let entry : AuditRecord :=
      { incidentID := incidentID
        userID := userID
        action := "update_status"
        parameters := [("new_status", status.str), ("reason", reason)]
        timestamp := env.now
        success := true
        result := "Status updated to " ++ status.str }
    let incident := { incident with auditLog := incident.auditLog ++ [entry] }
    if env.updateOk then
      { err := none, store := Store.update st incident, enqueued := [incident], appended := [entry] }
    else
      { err := some .persistFailure, store := st, enqueued := [], appended := [entry] }

end IncidentService

/-! ## Chat console: view registry (`internal/bot`) -/

/-- One chat surface as the registry sees it: `telebot.Editable.MessageSig()`
yields the message signature and the chat id. -/
structure Surface where
  chatID : Int
  messageSig : String
deriving DecidableEq, Repr

/-- Embeds `getViewRegistryKey`: `fmt.Sprintf("%d-%s", chatID, msgSig)`. -/
def getViewRegistryKey (s : Surface) : String :=
  toString s.chatID ++ "-" ++ s.messageSig

/-- The inner `map[string]telebot.Editable` of the registry. -/
abbrev ViewMap := List (String × Surface)

/-- The `viewRegistry` field: `map[uint]map[string]telebot.Editable`. -/
abbrev ViewRegistry := List (Nat × ViewMap)

/-- The surfaces registered for one incident (the empty map when the incident
has no entry, as the Go code creates one on demand). -/
def ViewRegistry.views (reg : ViewRegistry) (incidentID : Nat) : ViewMap :=
  (List.lookup incidentID reg).getD []

/-- Embeds `Bot.addIncidentView`: ensure the inner map exists, then assign the surface
under its registry key. -/
def addIncidentView (reg : ViewRegistry) (incidentID : Nat) (s : Surface) : ViewRegistry :=
  assocSet reg incidentID (assocSet (ViewRegistry.views reg incidentID) (getViewRegistryKey s) s)

/-- Embeds `Bot.removeIncidentView`: `delete(b.viewRegistry, incidentID)` — the whole
inner map for the incident is dropped. -/
def removeIncidentView (reg : ViewRegistry) (incidentID : Nat) : ViewRegistry :=
  reg.filter (fun p => !(p.1 == incidentID))

/-- The branch condition of `updateIncidentView` that selects the full
(primary detail) keyboard: the surface's message signature equals the
incident's bound `TelegramMessageID`. Any other registered surface is rendered
with the reduced summary keyboard when the incident is high-severity. -/
def isPrimarySurface (inc : Incident) (s : Surface) : Bool :=
  match inc.telegramMessageID with
  | some m => s.messageSig == toString m
  | none => false

/-! ## Chat console: per-operator interaction state (`internal/bot`) -/

/-- Model of `awaitingInputState`: the partially built request plus the originating
prompt surface. -/
structure AwaitingInput where
  request : ActionRequest
  messageID : Nat
  chatID : Int
deriving DecidableEq, Repr

/-- Model of `userState`: the three pending-flow fields; the Go zero values (`0`,
`nil`, `nil`) mean "no flow of that kind pending". -/
structure UserState where
  awaitingRejectReasonFor : Nat
  awaitingReplicaCountFor : Option AwaitingInput
  awaitingHardwareRequestFor : Option AwaitingInput
deriving DecidableEq, Repr

/-- The zero value `&userState{}`. -/
def UserState.empty : UserState :=
  { awaitingRejectReasonFor := 0
    awaitingReplicaCountFor := none
    awaitingHardwareRequestFor := none }

/-- The number of flows pending for an operator (a field counts as pending
when it differs from its zero value; `handleTextMessage` treats exactly these
as live flows). -/
def UserState.pendingFlows (s : UserState) : Nat :=
  (if s.awaitingRejectReasonFor ≠ 0 then 1 else 0) +
    (if s.awaitingReplicaCountFor.isSome then 1 else 0) +
    (if s.awaitingHardwareRequestFor.isSome then 1 else 0)

/-- The `userStates` field: `map[int64]*userState`. -/
abbrev UserStates := List (Int × UserState)

/-- Go map read `b.userStates[id]` (`none` models the `nil` pointer). -/
def UserStates.get (m : UserStates) (op : Int) : Option UserState :=
  List.lookup op m

/-- Embeds the Rejected branch of `handleSetStatus`:
`b.userStates[id] = &userState{AwaitingRejectReasonFor: incidentID}` — the
whole struct is replaced. -/
def startRejectReasonFlow (m : UserStates) (op : Int) (incidentID : Nat) : UserStates :=
  assocSet m op { UserState.empty with awaitingRejectReasonFor := incidentID }

/-- Embeds `handleScaleDeployment`: allocate the zero struct when the operator has
none, then set only the `AwaitingReplicaCountFor` field. -/
def startReplicaCountFlow (m : UserStates) (op : Int) (inp : AwaitingInput) : UserStates :=
  let cur := (UserStates.get m op).getD UserState.empty
  assocSet m op { cur with awaitingReplicaCountFor := some inp }

/-- Embeds `handleAllocateHardware`: allocate the zero struct when the operator has
none, then set only the `AwaitingHardwareRequestFor` field. -/
def startHardwareRequestFlow (m : UserStates) (op : Int) (inp : AwaitingInput) : UserStates :=
  let cur := (UserStates.get m op).getD UserState.empty
  assocSet m op { cur with awaitingHardwareRequestFor := some inp }

/-! ## Chat console: callback-token dispatch (`Bot.handleCallback`)

Handler bodies are abstracted to their token-parsing preamble: each handler
reads fixed positions of the `:`-split token before any validation, and in Go
an out-of-range index access panics. `dispatched h` means handler `h` got past
its positional reads; `ackSilent` is `c.Respond()` with no text (an empty,
invisible acknowledgement); `ackText` is a visible callback response. -/

/-- What the dispatch of one callback token does. -/
inductive CallbackOutcome where
  | ackSilent
  | ackText (msg : String)
  | dispatched (handler : String)
  | panicked
deriving DecidableEq, Repr

/-- Splitting a character list on a separator character (the groups between
occurrences of the separator, in order). -/
def splitChars (sep : Char) : List Char → List (List Char)
  | [] => [[]]
  | c :: rest =>
    match splitChars sep rest with
    | [] => [[]]
    | g :: gs => if c = sep then [] :: g :: gs else (c :: g) :: gs

/-- Go `strings.Split(data, ":")` for the one-character delimiter of the
callback protocol. -/
def splitColon (s : String) : List String :=
  (splitChars ':' s.data).map (fun cs => String.mk cs)

/-- Embeds `strconv.ParseUint(s, 10, 32)`: decimal digits only, non-empty, below
`2^32`. -/
def parseUint32 (s : String) : Option Nat :=
  if s.data ≠ [] ∧ s.data.all Char.isDigit then
    let n := s.data.foldl (fun acc c => acc * 10 + (c.toNat - 48)) 0
    if n < 2 ^ 32 then some n else none
  else none

/-- Embeds `Bot.handleCallback`: split on `:`; fewer than two fields ⇒ bare
`c.Respond()`; a non-numeric second field ⇒ visible "Invalid incident ID";
otherwise dispatch on the first field. Per-handler field demands from the
source: `ss:`/`pa:` read `parts[2]`; `vr:` checks `len(parts) < 4` itself and
answers "Invalid callback data"; `pra:`/`scd:` read up to `parts[4]`;
`ahw:`/`th:`/`gpl:` read up to `parts[3]`; `lpfd:`/`lcfp:`/`dp:`/`dd:`/`rbd:`
read `parts[2]`; unknown selectors get a bare `c.Respond()`. -/
def handleCallback (data : String) : CallbackOutcome :=
  let parts := splitColon data
  if parts.length < 2 then CallbackOutcome.ackSilent
  else
    match parseUint32 (parts.getD 1 "") with
    | none => .ackText "Invalid incident ID"
    | some _ =>
      match parts.getD 0 "" ++ ":" with
      | "vi:" => .dispatched "showIncidentView"
      | "sa:" => .dispatched "showActionsView"
      | "ci:" => .dispatched "showCloseOptions"
      | "ss:" => if parts.length ≥ 3 then .dispatched "handleSetStatus" else .panicked
      | "pa:" => if parts.length ≥ 3 then .dispatched "handlePerformAction" else .panicked
      | "vr:" =>
        if parts.length < 4 then .ackText "Invalid callback data"
        else .dispatched "showResourceActionsView"
      | "pra:" => if parts.length ≥ 5 then .dispatched "handlePerformResourceAction" else .panicked
      | "scd:" => if parts.length ≥ 5 then .dispatched "handleScaleDeployment" else .panicked
      | "ahw:" => if parts.length ≥ 4 then .dispatched "handleAllocateHardware" else .panicked
      | "th:" => if parts.length ≥ 4 then .dispatched "handleToggleHistory" else .panicked
      | "lpfd:" => if parts.length ≥ 3 then .dispatched "handleListPodsForDeployment" else .panicked
      | "lcfp:" => if parts.length ≥ 3 then .dispatched "handleListContainersForPod" else .panicked
      | "gpl:" => if parts.length ≥ 4 then .dispatched "handleGetPodLogs" else .panicked
      | "dp:" => if parts.length ≥ 3 then .dispatched "handleDescribePod" else .panicked
      | "dd:" => if parts.length ≥ 3 then .dispatched "handleDescribeDeployment" else .panicked
      | "rbd:" => if parts.length ≥ 3 then .dispatched "handleRollbackDeployment" else .panicked
      | _ => .ackSilent

/-! ## Shared lemmas about the store -/

theorem find?_append_none {α : Type} (p : α → Bool) (l₁ l₂ : List α)
    (h : l₁.find? p = none) :
    (l₁ ++ l₂).find? p = l₂.find? p := by
  induction l₁ with
  | nil => rfl
  | cons a tl ih =>
    cases ha : p a with
    | true => simp [List.find?_cons, ha] at h
    | false =>
      simp only [List.find?_cons, ha] at h
      simpa [List.find?_cons, ha] using ih h

theorem find?_map_update (l : List Incident) (i : Nat) (inc inc' : Incident)
    (hfound : l.find? (fun x => x.id == i) = some inc) (hid : inc'.id = i) :
    (l.map (fun x => if x.id == inc'.id then inc' else x)).find?
      (fun x => x.id == i) = some inc' := by
  induction l with
  | nil => simp [List.find?] at hfound
  | cons a tl ih =>
    cases ha : (a.id == i) with
    | true =>
      have haid : a.id = i := by simpa using ha
      have hcond : (a.id == inc'.id) = true := by simp [haid, hid]
      simp [List.find?_cons, ha, hcond, hid, haid]
    | false =>
      have haid : a.id ≠ i := by simpa using ha
      have hcond : (a.id == inc'.id) = false := by
        simp only [hid]
        simpa using haid
      simp only [List.find?_cons, ha] at hfound
      simpa [List.find?_cons, hcond, hid, haid] using ih hfound

/-- Replacing a row by primary key makes `FindByID` return the replacement. -/
theorem findByID_update_of_found (st : Store) (i : Nat) (inc inc' : Incident)
    (h : Store.findByID st i = some inc) (hid : inc'.id = i) :
    Store.findByID (Store.update st inc') i = some inc' :=
  find?_map_update st.incidents i inc inc' h hid

/-- A found incident's id is the id searched for. -/
theorem findByID_id_eq (st : Store) (i : Nat) (inc : Incident)
    (h : Store.findByID st i = some inc) : inc.id = i := by
  have h' : st.incidents.find? (fun x => x.id == i) = some inc := h
  have := List.find?_some h'
  simpa using this

/-- The helper `addAffectedResourceToAudit` only touches the parameter map. -/
theorem addAffectedResourceToAudit_success (e : AuditRecord) (r : ActionRequest) :
    (addAffectedResourceToAudit e r).success = e.success := by
  simp only [addAffectedResourceToAudit]
  split <;> rfl

/-- The audit entry `ExecuteAction` builds for a request. -/
def execEntry (env : Env) (req : ActionRequest) : AuditRecord :=
  addAffectedResourceToAudit
    { incidentID := req.incidentID, userID := req.userID, action := req.action,
      parameters := req.parameters, timestamp := env.now,
      success := (env.execAction req).error == "",
      result := (env.execAction req).message } req

/-- The success flag of the audit entry `ExecuteAction` appends is exactly
"the Executor result carried no error". -/
theorem execEntry_success (env : Env) (req : ActionRequest) :
    (execEntry env req).success = ((env.execAction req).error == "") := by
  simp [execEntry, addAffectedResourceToAudit_success]

/-- The field stamping `UpdateStatus` performs before appending the audit
entry. -/
def statusStamped (env : Env) (userID : Nat) (status : IncidentStatus) (reason : String)
    (inc : Incident) : Incident :=
  let inc := { inc with status := status }
  let inc :=
    if status = .resolved ∨ status = .rejected then { inc with endsAt := some env.now } else inc
  let inc := if status = .resolved then { inc with resolvedBy := some userID } else inc
  if status = .rejected then { inc with rejectionReason := reason } else inc

/-- The audit entry `UpdateStatus` builds. -/
def statusEntry (env : Env) (userID incidentID : Nat) (status : IncidentStatus)
    (reason : String) : AuditRecord :=
  { incidentID := incidentID, userID := userID, action := "update_status",
    parameters := [("new_status", status.str), ("reason", reason)],
    timestamp := env.now, success := true,
    result := "Status updated to " ++ status.str }

theorem statusStamped_id (env : Env) (userID : Nat) (status : IncidentStatus)
    (reason : String) (inc : Incident) :
    (statusStamped env userID status reason inc).id = inc.id := by
  simp only [statusStamped]
  split <;> split <;> split <;> rfl

theorem statusStamped_auditLog (env : Env) (userID : Nat) (status : IncidentStatus)
    (reason : String) (inc : Incident) :
    (statusStamped env userID status reason inc).auditLog = inc.auditLog := by
  simp only [statusStamped]
  split <;> split <;> split <;> rfl

theorem statusStamped_status (env : Env) (userID : Nat) (status : IncidentStatus)
    (reason : String) (inc : Incident) :
    (statusStamped env userID status reason inc).status = status := by
  simp only [statusStamped]
  split <;> split <;> split <;> rfl

/-- Unfolding of `ExecuteAction` when the incident is found and `repo.Update`
succeeds. -/
theorem executeAction_found_updateOk (env : Env) (st : Store) (req : ActionRequest)
    (inc : Incident) (h : Store.findByID st req.incidentID = some inc)
    (hup : env.updateOk = true) :
    IncidentService.executeAction env st req =
      { result := env.execAction req, err := none,
        store := Store.update st { inc with auditLog := inc.auditLog ++ [execEntry env req] },
        enqueued := [{ inc with auditLog := inc.auditLog ++ [execEntry env req] }],
        executorCalls := [req], appended := [execEntry env req] } := by
  unfold IncidentService.executeAction execEntry
  rw [h]
  simp [hup]

/-- Unfolding of `ExecuteAction` when the incident is found and `repo.Update`
fails. -/
theorem executeAction_found_updateFail (env : Env) (st : Store) (req : ActionRequest)
    (inc : Incident) (h : Store.findByID st req.incidentID = some inc)
    (hup : env.updateOk = false) :
    IncidentService.executeAction env st req =
      { result := env.execAction req, err := some .persistFailure, store := st,
        enqueued := [], executorCalls := [req], appended := [execEntry env req] } := by
  unfold IncidentService.executeAction execEntry
  rw [h]
  simp [hup]

/-- Unfolding of `UpdateStatus` when the incident is found and `repo.Update`
succeeds. -/
theorem updateStatus_found_updateOk (env : Env) (st : Store) (userID incidentID : Nat)
    (status : IncidentStatus) (reason : String) (inc : Incident)
    (h : Store.findByID st incidentID = some inc) (hup : env.updateOk = true) :
    IncidentService.updateStatus env st userID incidentID status reason =
      { err := none,
        store := Store.update st
          { statusStamped env userID status reason inc with
            auditLog := (statusStamped env userID status reason inc).auditLog ++
              [statusEntry env userID incidentID status reason] },
        enqueued := [{ statusStamped env userID status reason inc with
          auditLog := (statusStamped env userID status reason inc).auditLog ++
            [statusEntry env userID incidentID status reason] }],
        appended := [statusEntry env userID incidentID status reason] } := by
  unfold IncidentService.updateStatus statusStamped statusEntry
  rw [h]
  simp [hup]

/-! ## Concrete fixtures used by the witnesses and counterexamples -/

/-- A one-row store fixture: incident 1, Active, empty audit log. -/
def demoIncident : Incident :=
  { id := 1, fingerprint := "fp", status := .active, startsAt := 0, endsAt := none,
    summary := "API Gateway is down", description := "", labels := [("severity", "critical")],
    affectedResources := [("deployment", "front"), ("namespace", "prod")], auditLog := [],
    resolvedBy := none, rejectionReason := "", telegramChatID := some 9,
    telegramMessageID := some 10, telegramTopicID := none }

/-- The store holding exactly `demoIncident`. -/
def demoStore : Store := { incidents := [demoIncident], nextID := 2 }

/-- A remediation request against incident 1. -/
def demoReq : ActionRequest :=
  { action := "restart_deployment", incidentID := 1, userID := 2,
    parameters := [("deployment", "front"), ("namespace", "prod")] }

/-- An environment with a succeeding Executor and a succeeding `repo.Update`. -/
def demoEnv : Env :=
  { execAction := fun _ => { message := "done", error := "", resultData := none },
    updateOk := true, now := 7 }

/-- An environment with a failing Executor and a failing `repo.Update`. -/
def demoEnvFail : Env :=
  { execAction := fun _ => { message := "", error := "boom", resultData := none },
    updateOk := false, now := 7 }

/-! ## Claim theorems -/

/-- C10: when the request's IncidentID has no incident in the store,
`ExecuteAction` returns the store's error together with a result whose Error
field is "Incident not found", never invokes the Executor, appends no audit
record, leaves the store unchanged, and enqueues nothing on the update
channel. -/
theorem executeAction_missing_incident (env : Env) (st : Store) (req : ActionRequest)
    (h : Store.findByID st req.incidentID = none) :
    IncidentService.executeAction env st req =
      { result := { message := "", error := "Incident not found", resultData := none },
        err := some .recordNotFound, store := st, enqueued := [],
        executorCalls := [], appended := [] } := by
  unfold IncidentService.executeAction
  rw [h]

/-- Witness for C10 at the empty store. -/
theorem executeAction_missing_incident_witness :
    Store.findByID { incidents := [], nextID := 1 } 1 = none ∧
    IncidentService.executeAction
        { execAction := fun _ => { message := "done", error := "", resultData := none },
          updateOk := true, now := 5 }
        { incidents := [], nextID := 1 }
        { action := "rollback_deployment", incidentID := 1, userID := 2, parameters := [] } =
      { result := { message := "", error := "Incident not found", resultData := none },
        err := some .recordNotFound, store := { incidents := [], nextID := 1 },
        enqueued := [], executorCalls := [], appended := [] } :=
  ⟨rfl, executeAction_missing_incident _ _ _ rfl⟩

/-- C4: on an existing incident, `ExecuteAction` appends exactly one audit
record whose success flag is true exactly when the Executor's result carries
no error (empty `Error` string), regardless of the Executor's outcome, and it
returns the Executor's result to the caller even when persistence fails — the
persistence error is returned alongside the result, not instead of it. -/
theorem executeAction_result_and_success (env : Env) (st : Store) (req : ActionRequest)
    (inc : Incident) (h : Store.findByID st req.incidentID = some inc) :
    (IncidentService.executeAction env st req).result = env.execAction req ∧
    (IncidentService.executeAction env st req).appended.map AuditRecord.success =
      [((env.execAction req).error == "")] ∧
    (IncidentService.executeAction env st req).err =
      (if env.updateOk = true then none else some RepoError.persistFailure) := by
  cases hup : env.updateOk with
  | true =>
    rw [executeAction_found_updateOk env st req inc h hup]
    exact ⟨rfl, by simp [execEntry_success], by simp⟩
  | false =>
    rw [executeAction_found_updateFail env st req inc h hup]
    exact ⟨rfl, by simp [execEntry_success], by simp⟩

/-- Witness for C4: a one-incident store, a failing Executor, and a failing
`repo.Update` — the result is still the Executor's, the one appended record is
unsuccessful, and the persistence error rides alongside. -/
theorem executeAction_result_and_success_witness :
    Store.findByID demoStore 1 = some demoIncident ∧
    ((IncidentService.executeAction demoEnvFail demoStore demoReq).result =
        demoEnvFail.execAction demoReq ∧
      (IncidentService.executeAction demoEnvFail demoStore demoReq).appended.map
          AuditRecord.success = [((demoEnvFail.execAction demoReq).error == "")] ∧
      (IncidentService.executeAction demoEnvFail demoStore demoReq).err =
        (if demoEnvFail.updateOk = true then none else some RepoError.persistFailure)) :=
  ⟨rfl, executeAction_result_and_success demoEnvFail demoStore demoReq demoIncident rfl⟩

/-- C5: `ExecuteAction` never changes the incident's status: for every request
on an existing incident — whatever the Executor returns (succeeding rollback
or failing call) and whether or not persistence succeeds — the status stored
for the incident after the call equals its status before it, and exactly one
audit record is appended; rollback is not auto-closing. -/
theorem executeAction_status_frame (env : Env) (st : Store) (req : ActionRequest)
    (inc : Incident) (h : Store.findByID st req.incidentID = some inc) :
    (Store.findByID (IncidentService.executeAction env st req).store req.incidentID).map
        Incident.status = some inc.status ∧
    (IncidentService.executeAction env st req).appended.length = 1 := by
  cases hup : env.updateOk with
  | true =>
    rw [executeAction_found_updateOk env st req inc h hup]
    refine ⟨?_, rfl⟩
    rw [findByID_update_of_found st req.incidentID inc
      { inc with auditLog := inc.auditLog ++ [execEntry env req] } h
      (findByID_id_eq st _ inc h)]
    rfl
  | false =>
    rw [executeAction_found_updateFail env st req inc h hup]
    exact ⟨by rw [h]; rfl, rfl⟩

/-- Witness for C5: a failing Executor on the Active fixture leaves the status
Active with one audit record appended. -/
theorem executeAction_status_frame_witness :
    Store.findByID demoStore 1 = some demoIncident ∧
    ((Store.findByID (IncidentService.executeAction demoEnvFail demoStore demoReq).store
          1).map Incident.status = some demoIncident.status ∧
      (IncidentService.executeAction demoEnvFail demoStore demoReq).appended.length = 1) :=
  ⟨rfl, executeAction_status_frame demoEnvFail demoStore demoReq demoIncident rfl⟩

/-- C3: each `ExecuteAction` call and each `UpdateStatus` call on an existing
incident (with the update persisting) grows that incident's stored audit log
by exactly one record, and the log before the call is the prefix of the log
after it — the new log is the old log with a single record appended, so no
record is edited, removed or reordered. -/
theorem auditLog_appendOnly_plusOne (env : Env) (st : Store) (req : ActionRequest)
    (userID incidentID : Nat) (status : IncidentStatus) (reason : String)
    (inc inc' : Incident) (hup : env.updateOk = true)
    (h1 : Store.findByID st req.incidentID = some inc)
    (h2 : Store.findByID st incidentID = some inc') :
    (∃ e, (Store.findByID (IncidentService.executeAction env st req).store
        req.incidentID).map Incident.auditLog = some (inc.auditLog ++ [e])) ∧
    (∃ e, (Store.findByID
        (IncidentService.updateStatus env st userID incidentID status reason).store
        incidentID).map Incident.auditLog = some (inc'.auditLog ++ [e])) := by
  constructor
  · have h := h1
    rw [executeAction_found_updateOk env st req inc h hup]
    refine ⟨execEntry env req, ?_⟩
    rw [findByID_update_of_found st req.incidentID inc
      { inc with auditLog := inc.auditLog ++ [execEntry env req] } h
      (findByID_id_eq st _ inc h)]
    rfl
  · have h := h2
    rw [updateStatus_found_updateOk env st userID incidentID status reason inc' h hup]
    refine ⟨statusEntry env userID incidentID status reason, ?_⟩
    rw [findByID_update_of_found st incidentID inc'
      { statusStamped env userID status reason inc' with
        auditLog := (statusStamped env userID status reason inc').auditLog ++
          [statusEntry env userID incidentID status reason] } h
      ((statusStamped_id env userID status reason inc').trans (findByID_id_eq st _ inc' h))]
    simp [statusStamped_auditLog]

/-- Witness for C3: one `ExecuteAction` and one `UpdateStatus` on the fixture
each append exactly one record to the stored audit log. -/
theorem auditLog_appendOnly_plusOne_witness :
    demoEnv.updateOk = true ∧
    Store.findByID demoStore 1 = some demoIncident ∧
    ((∃ e, (Store.findByID (IncidentService.executeAction demoEnv demoStore demoReq).store
        1).map Incident.auditLog = some (demoIncident.auditLog ++ [e])) ∧
    (∃ e, (Store.findByID
        (IncidentService.updateStatus demoEnv demoStore 2 1 .resolved "").store
        1).map Incident.auditLog = some (demoIncident.auditLog ++ [e]))) :=
  ⟨rfl, rfl, auditLog_appendOnly_plusOne demoEnv demoStore demoReq 2 1 .resolved ""
    demoIncident demoIncident rfl rfl rfl⟩

/-- Helper for C1: characterisation of the creation path when no incident with
the alert's fingerprint exists. -/
theorem createIncidentFromAlert_of_notFound (st : Store) (a : Alert)
    (hf : Store.findByFingerprint st a.fingerprint = none) :
    IncidentService.createIncidentFromAlert st a =
      { res := .ok { incidentFromAlert a with id := st.nextID },
        store := { incidents := st.incidents ++ [{ incidentFromAlert a with id := st.nextID }],
                   nextID := st.nextID + 1 },
        notified := [{ incidentFromAlert a with id := st.nextID }] } := by
  have hall := List.find?_eq_none.mp hf
  have hany : st.incidents.any (fun i => i.fingerprint == a.fingerprint) = false := by
    rw [Bool.eq_false_iff]
    intro hc
    obtain ⟨x, hx, hpx⟩ := List.any_eq_true.mp hc
    exact hall x hx hpx
  unfold IncidentService.createIncidentFromAlert IncidentService.createNewFromAlert Store.create
  rw [hf]
  have : ((incidentFromAlert a).fingerprint) = a.fingerprint := rfl
  simp [this, hany]

/-- C1: for every fingerprint, calling `CreateIncidentFromAlert` twice while
the incident returned by the first successful call is still Active yields the
same incident (same id) from both calls, and the second call neither changes
the store (no duplicate incident) nor enqueues another notification. The
hypothesis is that the first call succeeded; the freshly created (or reused)
incident is Active and nothing intervenes between the calls. -/
theorem createFromAlert_idempotent_while_active (st : Store) (a : Alert) (inc : Incident)
    (h : (IncidentService.createIncidentFromAlert st a).res = .ok inc) :
    IncidentService.createIncidentFromAlert
        (IncidentService.createIncidentFromAlert st a).store a =
      { res := .ok inc,
        store := (IncidentService.createIncidentFromAlert st a).store,
        notified := [] } := by
  cases hf : Store.findByFingerprint st a.fingerprint with
  | some existing =>
    by_cases hs : existing.status = .active
    · have h1 : IncidentService.createIncidentFromAlert st a =
          { res := .ok existing, store := st, notified := [] } := by
        unfold IncidentService.createIncidentFromAlert
        rw [hf]
        simp [hs]
      rw [h1] at h ⊢
      have hinc : existing = inc := by
        simpa using h
      subst hinc
      unfold IncidentService.createIncidentFromAlert
      rw [hf]
      simp [hs]
    · -- the found incident is closed: `Create` hits the unique fingerprint
      -- constraint, so the first call cannot have returned `.ok`
      exfalso
      have hf' : st.incidents.find? (fun i => i.fingerprint == a.fingerprint) = some existing := hf
      have hmem : existing ∈ st.incidents := List.mem_of_find?_eq_some hf'
      have hpred := List.find?_some hf'
      have hany : st.incidents.any (fun i => i.fingerprint == a.fingerprint) = true :=
        List.any_eq_true.mpr ⟨existing, hmem, hpred⟩
      have h1 : IncidentService.createIncidentFromAlert st a =
          { res := .error .uniqueViolation, store := st, notified := [] } := by
        unfold IncidentService.createIncidentFromAlert IncidentService.createNewFromAlert
          Store.create
        rw [hf]
        have : ((incidentFromAlert a).fingerprint) = a.fingerprint := rfl
        simp [hs, this, hany]
      rw [h1] at h
      simp at h
  | none =>
    have h1 := createIncidentFromAlert_of_notFound st a hf
    rw [h1] at h
    have hinc : { incidentFromAlert a with id := st.nextID } = inc := by
      simpa using h
    subst hinc
    rw [h1]
    have hf2 : Store.findByFingerprint
        { incidents := st.incidents ++ [{ incidentFromAlert a with id := st.nextID }],
          nextID := st.nextID + 1 } a.fingerprint =
        some { incidentFromAlert a with id := st.nextID } := by
      unfold Store.findByFingerprint
      rw [find?_append_none _ _ _ hf]
      simp [incidentFromAlert]
    unfold IncidentService.createIncidentFromAlert
    rw [hf2]
    rfl

/-- Witness for C1: ingesting the same alert twice into the empty store. -/
theorem createFromAlert_idempotent_witness :
    (IncidentService.createIncidentFromAlert { incidents := [], nextID := 1 }
        { fingerprint := "fp1", startsAt := 0,
          labels := [("deployment", "front"), ("namespace", "prod")],
          annotations := [("summary", "S")] }).res =
      .ok { incidentFromAlert
        { fingerprint := "fp1", startsAt := 0,
          labels := [("deployment", "front"), ("namespace", "prod")],
          annotations := [("summary", "S")] } with id := 1 } ∧
    IncidentService.createIncidentFromAlert
        (IncidentService.createIncidentFromAlert { incidents := [], nextID := 1 }
          { fingerprint := "fp1", startsAt := 0,
            labels := [("deployment", "front"), ("namespace", "prod")],
            annotations := [("summary", "S")] }).store
        { fingerprint := "fp1", startsAt := 0,
          labels := [("deployment", "front"), ("namespace", "prod")],
          annotations := [("summary", "S")] } =
      { res := .ok { incidentFromAlert
          { fingerprint := "fp1", startsAt := 0,
            labels := [("deployment", "front"), ("namespace", "prod")],
            annotations := [("summary", "S")] } with id := 1 },
        store := (IncidentService.createIncidentFromAlert { incidents := [], nextID := 1 }
          { fingerprint := "fp1", startsAt := 0,
            labels := [("deployment", "front"), ("namespace", "prod")],
            annotations := [("summary", "S")] }).store,
        notified := [] } :=
  ⟨rfl, createFromAlert_idempotent_while_active { incidents := [], nextID := 1 } _ _ rfl⟩

/-- C2 (code bug): `UpdateStatus` has no terminal-state guard. Running the
code itself — create an incident, resolve it, then call `UpdateStatus` again
with Rejected — moves the incident out of the terminal status Resolved into
Rejected and appends a second `update_status` audit record whose
`new_status` parameter disagrees with the first one's, violating the required
invariant that no transition leaves a terminal state and that no two audit
records disagree on the final status. -/
theorem updateStatus_terminal_transition_bug :
    (Store.findByID
        (IncidentService.updateStatus demoEnv
          (IncidentService.createIncidentFromAlert { incidents := [], nextID := 1 }
            { fingerprint := "fp1", startsAt := 0, labels := [], annotations := [] }).store
          2 1 .resolved "").store 1).map Incident.status = some .resolved ∧
    (Store.findByID
        (IncidentService.updateStatus { demoEnv with now := 20 }
          (IncidentService.updateStatus demoEnv
            (IncidentService.createIncidentFromAlert { incidents := [], nextID := 1 }
              { fingerprint := "fp1", startsAt := 0, labels := [], annotations := [] }).store
            2 1 .resolved "").store
          3 1 .rejected "duplicate alarm").store 1).map Incident.status =
      some .rejected ∧
    (Store.findByID
        (IncidentService.updateStatus { demoEnv with now := 20 }
          (IncidentService.updateStatus demoEnv
            (IncidentService.createIncidentFromAlert { incidents := [], nextID := 1 }
              { fingerprint := "fp1", startsAt := 0, labels := [], annotations := [] }).store
            2 1 .resolved "").store
          3 1 .rejected "duplicate alarm").store 1).map
        (fun i => i.auditLog.map (fun e => StrMap.getD e.parameters "new_status")) =
      some ["resolved", "rejected"] :=
  ⟨rfl, rfl, rfl⟩

/-- C8 (code bug): callback dispatch does not fail closed on all malformed
tokens. The spec's own scenario token "xy" (missing delimiter and id) gets a
bare `c.Respond()` — an empty, invisible acknowledgement, not a visible
"invalid" response — and the well-prefixed token "scd:1" (correct handler
selector, numeric id, wrong field count) reaches `handleScaleDeployment`,
whose unchecked `parts[3]` access panics. -/
theorem handleCallback_malformed_token_bug :
    handleCallback "xy" = CallbackOutcome.ackSilent ∧
    handleCallback "scd:1" = CallbackOutcome.panicked :=
  ⟨rfl, rfl⟩

/-- C6: view registration is idempotent — registering the same (chat, message)
surface N times (N ≥ 1) for an incident leaves exactly one entry under that
surface's registry key in the incident's view map. -/
theorem addIncidentView_idempotent (reg : ViewRegistry) (incidentID : Nat) (s : Surface)
    (n : Nat) (h : 1 ≤ n) :
    assocCount
      (ViewRegistry.views ((fun r => addIncidentView r incidentID s)^[n] reg) incidentID)
      (getViewRegistryKey s) = 1 := by
  obtain ⟨m, rfl⟩ : ∃ m, n = m + 1 := ⟨n - 1, (Nat.succ_pred_eq_of_pos h).symm⟩
  rw [Function.iterate_succ_apply']
  unfold addIncidentView ViewRegistry.views
  rw [lookup_assocSet]
  simpa using assocCount_assocSet _ (getViewRegistryKey s) s

/-- Witness for C6: registering the same surface three times in the empty
registry keeps a single entry. -/
theorem addIncidentView_idempotent_witness :
    1 ≤ 3 ∧
    assocCount
      (ViewRegistry.views
        ((fun r => addIncidentView r 1 { chatID := 9, messageSig := "10" })^[3] []) 1)
      (getViewRegistryKey { chatID := 9, messageSig := "10" }) = 1 :=
  ⟨by decide, addIncidentView_idempotent [] 1 { chatID := 9, messageSig := "10" } 3 (by decide)⟩

/-- C7 counterexample: the pruning on a terminal transition is
`removeIncidentView`, which deletes the incident's whole view map. A summary
surface (message signature differing from the incident's bound primary message
id) is registered before the transition and gone after it — contradicting the
claim that every previously registered summary surface remains registered. -/
theorem removeIncidentView_drops_summary_counterexample :
    isPrimarySurface demoIncident { chatID := 9, messageSig := "11" } = false ∧
    assocCount
      (ViewRegistry.views
        (addIncidentView (addIncidentView [] 1 { chatID := 9, messageSig := "10" }) 1
          { chatID := 9, messageSig := "11" }) 1)
      (getViewRegistryKey { chatID := 9, messageSig := "11" }) = 1 ∧
    assocCount
      (ViewRegistry.views
        (removeIncidentView
          (addIncidentView (addIncidentView [] 1 { chatID := 9, messageSig := "10" }) 1
            { chatID := 9, messageSig := "11" }) 1) 1)
      (getViewRegistryKey { chatID := 9, messageSig := "11" }) = 0 :=
  ⟨rfl, rfl, rfl⟩

/-- C7 (amended): after an incident's terminal transition (the
`handleSetStatus` terminal branch calls `removeIncidentView`), zero surfaces
of any kind remain registered for that incident — the primary detail surfaces
are indeed deregistered, but so is every summary surface. -/
theorem removeIncidentView_clears_all_views (reg : ViewRegistry) (incidentID : Nat) :
    ViewRegistry.views (removeIncidentView reg incidentID) incidentID = [] := by
  unfold ViewRegistry.views removeIncidentView
  rw [lookup_filter_ne_self]
  rfl

/-- C9 counterexample: pending flows do not exclude each other. Operator 7
starts the rejection-reason flow (via the Rejected branch of
`handleSetStatus`) and then the replica-count flow (via
`handleScaleDeployment`); afterwards both flows are pending at once. -/
theorem two_pending_flows_counterexample :
    (UserStates.get
        (startReplicaCountFlow (startRejectReasonFlow [] 7 1) 7
          { request := demoReq, messageID := 5, chatID := 9 }) 7).map
      UserState.pendingFlows = some 2 :=
  rfl

/-- C9 (amended): starting the rejection-reason flow replaces the operator's
whole interaction state (clearing any other pending flow), but starting the
replica-count or hardware-request flow overwrites only its own field and
keeps the rest of the operator's previous state — so flows of different kinds
can be pending simultaneously. -/
theorem flow_start_effects (m : UserStates) (op : Int) (incidentID : Nat)
    (inp : AwaitingInput) :
    UserStates.get (startRejectReasonFlow m op incidentID) op =
      some { awaitingRejectReasonFor := incidentID, awaitingReplicaCountFor := none,
             awaitingHardwareRequestFor := none } ∧
    UserStates.get (startReplicaCountFlow m op inp) op =
      some { (UserStates.get m op).getD UserState.empty with
             awaitingReplicaCountFor := some inp } ∧
    UserStates.get (startHardwareRequestFlow m op inp) op =
      some { (UserStates.get m op).getD UserState.empty with
             awaitingHardwareRequestFor := some inp } := by
  refine ⟨?_, ?_, ?_⟩ <;>
    simp [startRejectReasonFlow, startReplicaCountFlow, startHardwareRequestFlow,
      UserStates.get, UserState.empty, lookup_assocSet]

end Fenrir
